import Mathlib

/-!
# Verification of librpmi core components

Shallow embedding of the RISC-V RPMI platform-firmware library (librpmi):
endian conversion helpers and the transport message-header (de)serialisation
(`lib/rpmi_transport.c`, `include/librpmi_env.h`), the shared-memory
abstraction bounds checks (`lib/rpmi_shmem.c`), the shared-memory ring queues
(`lib/rpmi_transport_shmem.c`), the clock-tree state control
(`lib/rpmi_service_group_clock.c`), the HSM hart state machine
(`lib/rpmi_hsm.c`), the system-suspend service group
(`lib/rpmi_service_group_syssusp.c`), the system-MSI service group
(`lib/rpmi_service_group_sysmsi.c`), and the context A2P request dispatch
(`lib/rpmi_context.c`).

Machine integers are modelled as `Nat` with explicit truncation modulo
`2 ^ 16` / `2 ^ 32` where C unsigned assignment truncates, and as `Int`
for the signed `enum rpmi_error` status codes and the signed HSM hart
state (`rpmi_int32_t` cast).  The host build is modelled as little-endian
(`__BYTE_ORDER__ == __ORDER_LITTLE_ENDIAN__` branch of `librpmi_env.h`),
which is the byte order of every supported RISC-V platform target.
-/

/-- Truncation of a C expression assigned to an `rpmi_uint16_t` lvalue. -/
def u16 (x : Nat) : Nat := x % 2 ^ 16

/-- Truncation of a C expression assigned to an `rpmi_uint32_t` lvalue. -/
def u32 (x : Nat) : Nat := x % 2 ^ 32

/-- Two's-complement image of a signed 32-bit value in an unsigned register,
for `(rpmi_uint32_t)` casts of `enum rpmi_error` values. -/
def int_to_u32 (x : Int) : Nat := (x % 2 ^ 32).toNat

/-! ## Status codes (`enum rpmi_error`, include/librpmi.h) -/

def RPMI_SUCCESS : Int := 0
def RPMI_ERR_FAILED : Int := -1
def RPMI_ERR_NOTSUPP : Int := -2
def RPMI_ERR_INVALID_PARAM : Int := -3
def RPMI_ERR_DENIED : Int := -4
def RPMI_ERR_ALREADY : Int := -6
def RPMI_ERR_BUSY : Int := -9
def RPMI_ERR_BAD_RANGE : Int := -11
/-- The input/output back-pressure error code of the source (value -13). -/
def RPMI_ERR_INOUT : Int := -13
def RPMI_ERR_NO_DATA : Int := -14

/-! ## Endian conversion helpers (include/librpmi_env.h, lines 332-415) -/

/-- The `BSWAP16` macro. -/
def BSWAP16 (x : Nat) : Nat :=
  u16 (((x &&& 0x00ff) <<< 8) ||| ((x &&& 0xff00) >>> 8))

/-- The `BSWAP32` macro. -/
def BSWAP32 (x : Nat) : Nat :=
  u32 ((((x &&& 0x000000ff) <<< 24) ||| ((x &&& 0x0000ff00) <<< 8)) |||
       (((x &&& 0x00ff0000) >>> 8) ||| ((x &&& 0xff000000) >>> 24)))

/-- `rpmi_to_le16` on a little-endian host: identity. -/
def rpmi_to_le16 (x : Nat) : Nat := x

/-- `rpmi_to_le32` on a little-endian host: identity. -/
def rpmi_to_le32 (x : Nat) : Nat := x

/-- `rpmi_to_be16` on a little-endian host: byte swap. -/
def rpmi_to_be16 (x : Nat) : Nat := BSWAP16 x

/-- `rpmi_to_be32` on a little-endian host: byte swap. -/
def rpmi_to_be32 (x : Nat) : Nat := BSWAP32 x

/-- `rpmi_to_xe16`: convert a 16-bit value to the transport endianness. -/
def rpmi_to_xe16 (is_be : Bool) (x : Nat) : Nat :=
  if is_be then rpmi_to_be16 x else rpmi_to_le16 x

/-- `rpmi_to_xe32`: convert a 32-bit value to the transport endianness. -/
def rpmi_to_xe32 (is_be : Bool) (x : Nat) : Nat :=
  if is_be then rpmi_to_be32 x else rpmi_to_le32 x

/-! ## Message envelope (include/librpmi.h, lines 98-110) -/

/-- `struct rpmi_message_header`: `servicegroup_id:u16`, `service_id:u8`,
`flags:u8`, `datalen:u16`, `token:u16`. -/
structure rpmi_message_header where
  servicegroup_id : Nat
  service_id : Nat
  flags : Nat
  datalen : Nat
  token : Nat
deriving DecidableEq

/-- `struct rpmi_message`: header followed by payload bytes. -/
structure rpmi_message where
  header : rpmi_message_header
  data : List Nat
deriving DecidableEq

/-- Header-field conversion performed in place by `rpmi_transport_enqueue`
before the inner enqueue writes the slot (lib/rpmi_transport.c lines
100-104): `servicegroup_id` and `datalen` are converted with `rpmi_to_xe32`
(the 32-bit swap result truncated by assignment to the 16-bit field) and
`token` with `rpmi_to_xe16`. -/
def enqueue_header_convert (is_be : Bool) (h : rpmi_message_header) :
    rpmi_message_header :=
  { h with
    servicegroup_id := u16 (rpmi_to_xe32 is_be h.servicegroup_id)
    datalen := u16 (rpmi_to_xe32 is_be h.datalen)
    token := u16 (rpmi_to_xe16 is_be h.token) }

/-- Header-field conversion performed by `rpmi_transport_dequeue` on the
message read back from the slot (lib/rpmi_transport.c lines 164-170):
`servicegroup_id` via `rpmi_to_xe32`, `datalen` and `token` via
`rpmi_to_xe16`. -/
def dequeue_header_convert (is_be : Bool) (h : rpmi_message_header) :
    rpmi_message_header :=
  { h with
    servicegroup_id := u16 (rpmi_to_xe32 is_be h.servicegroup_id)
    datalen := u16 (rpmi_to_xe16 is_be h.datalen)
    token := u16 (rpmi_to_xe16 is_be h.token) }

/-- Net effect of `rpmi_transport_enqueue` followed by
`rpmi_transport_dequeue` on the header of a message carried through a
shared-memory queue: `shmem_enqueue`/`shmem_dequeue` copy the whole slot
verbatim (lib/rpmi_transport_shmem.c lines 108-109 and 147-148), so a
dequeued header is the enqueue-converted header fed through the dequeue
conversion.  The payload bytes are copied unmodified. -/
def transport_header_roundtrip (is_be : Bool) (h : rpmi_message_header) :
    rpmi_message_header :=
  dequeue_header_convert is_be (enqueue_header_convert is_be h)

/-! ## Shared-memory abstraction (lib/rpmi_shmem.c) -/

/-- `struct rpmi_shmem` (base address and size; the name string and the
platform op table are irrelevant to the bounds checks). -/
structure rpmi_shmem where
  base : Nat
  size : Nat
deriving DecidableEq

/-- Outcome of a shared-memory access: the returned status code and
whether the platform read/write/fill operation was invoked. -/
structure shmem_access_result where
  status : Int
  platform_called : Bool
deriving DecidableEq

/-- `rpmi_shmem_read` (lib/rpmi_shmem.c lines 100-113).  The shmem handle
and the destination pointer are modelled by nullability; the platform
read's status is abstracted as `plat_status`.  The bounds check
`(offset + len) > shmem->size` adds two `rpmi_uint32_t` values, hence the
sum wraps modulo `2 ^ 32`. -/
def rpmi_shmem_read (shmem : Option rpmi_shmem) (offset : Nat)
    (dst_is_null : Bool) (len : Nat) (plat_status : Int) :
    shmem_access_result :=
  match shmem with
  | none => ⟨RPMI_ERR_INVALID_PARAM, false⟩
  | some s =>
    if dst_is_null then ⟨RPMI_ERR_INVALID_PARAM, false⟩
    else if u32 (offset + len) > s.size then ⟨RPMI_ERR_BAD_RANGE, false⟩
    else ⟨plat_status, true⟩

/-- `rpmi_shmem_write` (lib/rpmi_shmem.c lines 115-128). -/
def rpmi_shmem_write (shmem : Option rpmi_shmem) (offset : Nat)
    (src_is_null : Bool) (len : Nat) (plat_status : Int) :
    shmem_access_result :=
  match shmem with
  | none => ⟨RPMI_ERR_INVALID_PARAM, false⟩
  | some s =>
    if src_is_null then ⟨RPMI_ERR_INVALID_PARAM, false⟩
    else if u32 (offset + len) > s.size then ⟨RPMI_ERR_BAD_RANGE, false⟩
    else ⟨plat_status, true⟩

/-- `rpmi_shmem_fill` (lib/rpmi_shmem.c lines 130-143): no buffer pointer,
so only the handle is null-checked. -/
def rpmi_shmem_fill (shmem : Option rpmi_shmem) (offset : Nat)
    (len : Nat) (plat_status : Int) : shmem_access_result :=
  match shmem with
  | none => ⟨RPMI_ERR_INVALID_PARAM, false⟩
  | some s =>
    if u32 (offset + len) > s.size then ⟨RPMI_ERR_BAD_RANGE, false⟩
    else ⟨plat_status, true⟩

/-! ## Shared-memory ring queue (lib/rpmi_transport_shmem.c) -/

/-- One ring queue in shared memory.  Slot 0 of the queue holds the head
index and slot 1 the tail index (both little-endian `u32`); the
`data_slots` data slots follow.  `slots` lists the data slots' contents
(slot `i` lives at byte offset `(i + 2) * slot_size`). -/
structure shmem_queue where
  head : Nat
  tail : Nat
  data_slots : Nat
  slots : List rpmi_message
deriving DecidableEq

/-- `shmem_is_empty` (lib/rpmi_transport_shmem.c lines 29-56): head and
tail are read from shared memory and compared. -/
def shmem_is_empty (q : shmem_queue) : Bool := q.head == q.tail

/-- `shmem_is_full` (lib/rpmi_transport_shmem.c lines 58-86):
`rpmi_env_mod32(tailidx + 1, data_slots) == headidx`, the increment
performed in `rpmi_uint32_t`. -/
def shmem_is_full (q : shmem_queue) : Bool :=
  u32 (q.tail + 1) % q.data_slots == q.head

/-- `shmem_enqueue` (lib/rpmi_transport_shmem.c lines 88-126): write the
full slot at data index `tail`, then advance the tail modulo
`data_slots`. -/
def shmem_enqueue (q : shmem_queue) (m : rpmi_message) : shmem_queue :=
  { q with
    slots := q.slots.set q.tail m
    tail := u32 (q.tail + 1) % q.data_slots }

/-- `rpmi_transport_enqueue` (lib/rpmi_transport.c lines 71-122) on a
shared-memory transport queue: the header is endian-converted in place,
then under the transport lock fullness is checked — a full queue fails
with the input/output error before the inner enqueue runs — otherwise
`shmem_enqueue` stores the converted message.  (The NULL-pointer, qtype
range and absent-p2a-channel guards concern C pointer and enum validity
and are outside this per-queue model.) -/
def rpmi_transport_enqueue (is_be : Bool) (q : shmem_queue)
    (m : rpmi_message) : Int × shmem_queue :=
  let mc : rpmi_message := ⟨enqueue_header_convert is_be m.header, m.data⟩
  if shmem_is_full q then (RPMI_ERR_INOUT, q)
  else (RPMI_SUCCESS, shmem_enqueue q mc)

/-- Fold `rpmi_transport_enqueue` over a list of messages, collecting
every call's status and the final queue. -/
def enqueue_seq (is_be : Bool) (q : shmem_queue) :
    List rpmi_message → List Int × shmem_queue
  | [] => ([], q)
  | m :: ms =>
    let r := rpmi_transport_enqueue is_be q m
    let rest := enqueue_seq is_be r.2 ms
    (r.1 :: rest.1, rest.2)

/-! ## Clock tree (lib/rpmi_service_group_clock.c) -/

def RPMI_CLK_STATE_DISABLED : Nat := 0
def RPMI_CLK_STATE_ENABLED : Nat := 1

/-- `struct rpmi_clock`: enable count, cached state, parent link and
child list.  Clocks are identified by their index in the group's
`clock_tree` array, so `parent` and `children` hold indices. -/
structure rpmi_clock where
  enable_count : Nat
  current_state : Nat
  parent : Option Nat
  children : List Nat
deriving DecidableEq

/-- `struct rpmi_clock_group`: the clock array (static data and platform
ops are modelled separately). -/
structure rpmi_clock_group where
  clocks : List rpmi_clock
deriving DecidableEq

def clock_default : rpmi_clock := ⟨0, 0, none, []⟩

/-- `rpmi_get_clock`: `&clock_group->clock_tree[clock_id]`. -/
def rpmi_get_clock (g : rpmi_clock_group) (clkid : Nat) : rpmi_clock :=
  g.clocks.getD clkid clock_default

/-- Store back a clock record mutated through the pointer obtained by
`rpmi_get_clock`. -/
def clock_group_set (g : rpmi_clock_group) (clkid : Nat) (c : rpmi_clock) :
    rpmi_clock_group :=
  ⟨g.clocks.set clkid c⟩

/-- The `rpmi_uint32_t` decrement `clk->enable_count -= 1`. -/
def u32_dec (c : Nat) : Nat := (c + 2 ^ 32 - 1) % 2 ^ 32

/-- The `rpmi_uint32_t` increment `clk->enable_count += 1`. -/
def u32_inc (c : Nat) : Nat := (c + 1) % 2 ^ 32

/-- `__rpmi_clock_set_state` (lib/rpmi_service_group_clock.c lines
196-281).  `set_state` is the platform's `ops->set_state` callback
abstracted as its status; the third result component lists the platform
`set_state` invocations `(clock id, requested state)` in call order.  The
enable branch recurses on the parent pointer; `fuel` bounds that parent
chain (any value exceeding the chain length, e.g. the clock count, is
enough — the C code assumes the tree is acyclic). -/
def clock_set_state_inner (set_state : Nat → Nat → Int) :
    Nat → rpmi_clock_group → Nat → Nat →
    Int × rpmi_clock_group × List (Nat × Nat)
  | 0, g, _, _ => (RPMI_ERR_FAILED, g, [])
  | fuel + 1, g, clkid, state =>
    let clk := rpmi_get_clock g clkid
    if state = RPMI_CLK_STATE_DISABLED then
      if clk.current_state = RPMI_CLK_STATE_DISABLED then
        (RPMI_ERR_ALREADY, g, [])
      else if clk.children.length = 0 ∨ clk.enable_count = 1 then
        let r := set_state clkid state
        if r ≠ 0 then (r, g, [(clkid, state)])
        else
          (RPMI_SUCCESS,
           clock_group_set g clkid
             { clk with current_state := state,
                        enable_count := u32_dec clk.enable_count },
           [(clkid, state)])
      else if clk.children.any
          (fun c => (rpmi_get_clock g c).current_state =
                    RPMI_CLK_STATE_ENABLED) then
        (RPMI_ERR_DENIED, g, [])
      else
        let r := set_state clkid state
        if r ≠ 0 then (r, g, [(clkid, state)])
        else
          (RPMI_SUCCESS,
           clock_group_set g clkid
             { clk with current_state := state,
                        enable_count := u32_dec clk.enable_count },
           [(clkid, state)])
    else if state = RPMI_CLK_STATE_ENABLED then
      if clk.current_state = RPMI_CLK_STATE_ENABLED then
        (RPMI_ERR_ALREADY, g, [])
      else
        match clk.parent with
        | none =>
          let r := set_state clkid state
          if r ≠ 0 then (r, g, [(clkid, state)])
          else
            (RPMI_SUCCESS,
             clock_group_set g clkid
               { clk with current_state := state,
                          enable_count := u32_inc clk.enable_count },
             [(clkid, state)])
        | some p =>
          let rec1 := clock_set_state_inner set_state fuel g p state
          if rec1.1 ≠ 0 ∧ rec1.1 ≠ RPMI_ERR_ALREADY then rec1
          else
            let g1 := rec1.2.1
            let clk1 := rpmi_get_clock g1 clkid
            let r := set_state clkid state
            if r ≠ 0 then (r, g1, rec1.2.2 ++ [(clkid, state)])
            else
              (RPMI_SUCCESS,
               clock_group_set g1 clkid
                 { clk1 with current_state := state,
                             enable_count := u32_inc clk1.enable_count },
               rec1.2.2 ++ [(clkid, state)])
    else (RPMI_SUCCESS, g, [])

/-- `rpmi_clock_set_state` (lib/rpmi_service_group_clock.c lines
283-297): take the clock's lock and run `__rpmi_clock_set_state`; the
fuel `clocks.length + 1` strictly exceeds any acyclic parent-chain
length. -/
def rpmi_clock_set_state (set_state : Nat → Nat → Int)
    (g : rpmi_clock_group) (clkid state : Nat) :
    Int × rpmi_clock_group × List (Nat × Nat) :=
  clock_set_state_inner set_state (g.clocks.length + 1) g clkid state

/-! ## HSM hart state machine (lib/rpmi_hsm.c) -/

def LIBRPMI_HSM_INVALID_HART_ID : Nat := 2 ^ 32 - 1
def LIBRPMI_HSM_INVALID_HART_INDEX : Nat := 2 ^ 32 - 1

/-- `enum rpmi_hsm_hart_state` values; the synthetic pre-reconciliation
state is `-1` (any negative value counts as unknown). -/
def RPMI_HSM_HART_STATE_STARTED : Int := 0
def RPMI_HSM_HART_STATE_STOPPED : Int := 1
def RPMI_HSM_HART_STATE_START_PENDING : Int := 2
def RPMI_HSM_HART_STATE_STOP_PENDING : Int := 3
def RPMI_HSM_HART_STATE_SUSPENDED : Int := 4
def RPMI_HSM_HART_STATE_SUSPEND_PENDING : Int := 5
def RPMI_HSM_HART_STATE_RESUME_PENDING : Int := 6

/-- `enum rpmi_hart_hw_state` values. -/
def RPMI_HART_HW_STATE_STOPPED : Nat := 0
def RPMI_HART_HW_STATE_STARTED : Nat := 1
def RPMI_HART_HW_STATE_SUSPENDED : Nat := 2

/-- `struct rpmi_hsm_hart`: current state (signed, `-1` before the first
reconciliation), start address, resume address.  The suspend-type pointer
is dropped: no claim inspects it. -/
structure rpmi_hsm_hart where
  state : Int
  start_addr : Nat
  resume_addr : Nat
deriving DecidableEq

def hart_default : rpmi_hsm_hart := ⟨-1, 0, 0⟩

/-- `struct rpmi_hsm`: a leaf owns a hart-ID array and a parallel hart
array; a non-leaf owns child instances. -/
inductive rpmi_hsm where
  | leaf (hart_ids : List Nat) (harts : List rpmi_hsm_hart)
  | nonleaf (children : List rpmi_hsm)

/-- `rpmi_hsm_hart_count` (lib/rpmi_hsm.c lines 74-92): leaf hart count,
or the sum over the children of a non-leaf. -/
def rpmi_hsm_hart_count : rpmi_hsm → Nat
  | .leaf ids _ => ids.length
  | .nonleaf cs => hart_count_children cs
where
  hart_count_children : List rpmi_hsm → Nat
    | [] => 0
    | c :: cs => rpmi_hsm_hart_count c + hart_count_children cs

/-- `rpmi_hsm_hart_index2id` (lib/rpmi_hsm.c lines 122-138) together with
the `rpmi_hsm_hart_index2child` walk (lines 94-120): an out-of-range index
yields the invalid-ID sentinel; a leaf reads `hart_ids[hart_index]`; a
non-leaf locates the first child whose cumulative index range contains
the index and recurses with the child-relative index. -/
def rpmi_hsm_hart_index2id : rpmi_hsm → Nat → Nat
  | .leaf ids _, idx =>
    if ids.length ≤ idx then LIBRPMI_HSM_INVALID_HART_ID
    else ids.getD idx 0
  | .nonleaf cs, idx =>
    if rpmi_hsm_hart_count.hart_count_children cs ≤ idx then
      LIBRPMI_HSM_INVALID_HART_ID
    else index2id_children cs idx
where
  index2id_children : List rpmi_hsm → Nat → Nat
    | [], _ => LIBRPMI_HSM_INVALID_HART_ID
    | c :: cs, idx =>
      if idx < rpmi_hsm_hart_count c then rpmi_hsm_hart_index2id c idx
      else index2id_children cs (idx - rpmi_hsm_hart_count c)

/-- `rpmi_hsm_hart_id2index` (lib/rpmi_hsm.c lines 140-154): scan hart
indices in order and return the first whose ID matches, else the
invalid-index sentinel. -/
def rpmi_hsm_hart_id2index (hsm : rpmi_hsm) (hart_id : Nat) : Nat :=
  match (List.range (rpmi_hsm_hart_count hsm)).find?
      (fun i => rpmi_hsm_hart_index2id hsm i == hart_id) with
  | some i => i
  | none => LIBRPMI_HSM_INVALID_HART_INDEX

/-- `rpmi_hsm_get_hart_state` (lib/rpmi_hsm.c lines 457-486): an unknown
hart ID fails with `RPMI_ERR_INVALID_PARAM`; a leaf returns the hart's
cached state; a non-leaf forwards to the child owning the hart index. -/
def rpmi_hsm_get_hart_state : rpmi_hsm → Nat → Int
  | .leaf ids harts, hart_id =>
    let idx := rpmi_hsm_hart_id2index (.leaf ids harts) hart_id
    if idx = LIBRPMI_HSM_INVALID_HART_INDEX then RPMI_ERR_INVALID_PARAM
    else (harts.getD idx hart_default).state
  | .nonleaf cs, hart_id =>
    let idx := rpmi_hsm_hart_id2index (.nonleaf cs) hart_id
    if idx = LIBRPMI_HSM_INVALID_HART_INDEX then RPMI_ERR_INVALID_PARAM
    else get_hart_state_children cs idx hart_id
where
  get_hart_state_children : List rpmi_hsm → Nat → Nat → Int
    | [], _, _ => RPMI_ERR_INVALID_PARAM
    | c :: cs, idx, hart_id =>
      if idx < rpmi_hsm_hart_count c then rpmi_hsm_get_hart_state c hart_id
      else get_hart_state_children cs (idx - rpmi_hsm_hart_count c) hart_id

/-- `__rpmi_hsm_process_hart_state_changes` (lib/rpmi_hsm.c lines
200-258) as a function of the platform-reported hardware state and the
hart's cached state.  A negative cached state is classified from the
hardware state; otherwise the pending states advance to their target
state exactly when the hardware state agrees, and `SUSPENDED` moves back
to `STARTED` when the hart woke by itself.  (The `hart_*_finalize`
platform callbacks return `void` and do not affect the hart record.) -/
def process_hart_state_change (hw_state : Nat) (state : Int) : Int :=
  if state < 0 then
    if hw_state = RPMI_HART_HW_STATE_STARTED then RPMI_HSM_HART_STATE_STARTED
    else if hw_state = RPMI_HART_HW_STATE_SUSPENDED then
      RPMI_HSM_HART_STATE_SUSPENDED
    else RPMI_HSM_HART_STATE_STOPPED
  else if state = RPMI_HSM_HART_STATE_START_PENDING then
    if hw_state = RPMI_HART_HW_STATE_STARTED then RPMI_HSM_HART_STATE_STARTED
    else state
  else if state = RPMI_HSM_HART_STATE_STOP_PENDING then
    if hw_state = RPMI_HART_HW_STATE_SUSPENDED ∨
       hw_state = RPMI_HART_HW_STATE_STOPPED then RPMI_HSM_HART_STATE_STOPPED
    else state
  else if state = RPMI_HSM_HART_STATE_SUSPEND_PENDING then
    if hw_state = RPMI_HART_HW_STATE_SUSPENDED then
      RPMI_HSM_HART_STATE_SUSPENDED
    else state
  else if state = RPMI_HSM_HART_STATE_SUSPENDED then
    if hw_state = RPMI_HART_HW_STATE_STARTED then RPMI_HSM_HART_STATE_STARTED
    else state
  else state

/-- The leaf platform operations vtable (`struct rpmi_hsm_platform_ops`):
`hart_get_hw_state` maps a hart index to its hardware state; the three
`*_prepare` callbacks are abstracted as status functions, with `has_*`
recording whether the prepare/finalize pair is non-NULL. -/
structure rpmi_hsm_platform_ops where
  hart_get_hw_state : Nat → Nat
  has_hart_start : Bool
  hart_start_prepare : Nat → Nat → Int
  has_hart_stop : Bool
  hart_stop_prepare : Nat → Int
  has_hart_suspend : Bool
  hart_suspend_prepare : Nat → Nat → Int

/-- `rpmi_hsm_process_state_changes` (lib/rpmi_hsm.c lines 488-509) on a
leaf instance: reconcile every hart against its hardware state. -/
def rpmi_hsm_process_state_changes_leaf (ops : rpmi_hsm_platform_ops)
    (harts : List rpmi_hsm_hart) : List rpmi_hsm_hart :=
  harts.mapIdx (fun i h =>
    { h with state := process_hart_state_change (ops.hart_get_hw_state i)
                        h.state })

/-- `rpmi_hsm_create` (lib/rpmi_hsm.c lines 511-564) after a successful
return: every hart record is zero-allocated, its state set to `-1`, and
one `rpmi_hsm_process_state_changes` pass classifies each hart from its
hardware state. -/
def rpmi_hsm_create (hart_ids : List Nat) (ops : rpmi_hsm_platform_ops) :
    rpmi_hsm :=
  .leaf hart_ids
    (rpmi_hsm_process_state_changes_leaf ops
      (hart_ids.map (fun _ => { hart_default with state := -1 })))

/-- `rpmi_hsm_hart_start` (lib/rpmi_hsm.c lines 260-323) on a leaf
instance: unknown ID fails, missing prepare/finalize pair is
unsupported, `STARTED`/`START_PENDING` are already-cases, any state
other than `STOPPED` is denied; otherwise `hart_start_prepare` runs,
the start address is recorded, the state becomes `START_PENDING` and one
reconciliation step runs on this hart. -/
def rpmi_hsm_hart_start_leaf (ops : rpmi_hsm_platform_ops)
    (ids : List Nat) (harts : List rpmi_hsm_hart)
    (hart_id start_addr : Nat) : Int × List rpmi_hsm_hart :=
  let idx := rpmi_hsm_hart_id2index (.leaf ids harts) hart_id
  if idx = LIBRPMI_HSM_INVALID_HART_INDEX then
    (RPMI_ERR_INVALID_PARAM, harts)
  else if ¬ops.has_hart_start then (RPMI_ERR_NOTSUPP, harts)
  else
    let hart := harts.getD idx hart_default
    if hart.state = RPMI_HSM_HART_STATE_STARTED then (RPMI_ERR_ALREADY, harts)
    else if hart.state = RPMI_HSM_HART_STATE_START_PENDING then
      (RPMI_ERR_ALREADY, harts)
    else if hart.state ≠ RPMI_HSM_HART_STATE_STOPPED then
      (RPMI_ERR_DENIED, harts)
    else
      let r := ops.hart_start_prepare idx start_addr
      if r ≠ 0 then (r, harts)
      else
        let hart1 := { hart with start_addr := start_addr,
                                 state := RPMI_HSM_HART_STATE_START_PENDING }
        let hart2 := { hart1 with
          state := process_hart_state_change (ops.hart_get_hw_state idx)
                     hart1.state }
        (RPMI_SUCCESS, harts.set idx hart2)

/-- `rpmi_hsm_hart_stop` (lib/rpmi_hsm.c lines 325-386) on a leaf
instance. -/
def rpmi_hsm_hart_stop_leaf (ops : rpmi_hsm_platform_ops)
    (ids : List Nat) (harts : List rpmi_hsm_hart) (hart_id : Nat) :
    Int × List rpmi_hsm_hart :=
  let idx := rpmi_hsm_hart_id2index (.leaf ids harts) hart_id
  if idx = LIBRPMI_HSM_INVALID_HART_INDEX then
    (RPMI_ERR_INVALID_PARAM, harts)
  else if ¬ops.has_hart_stop then (RPMI_ERR_NOTSUPP, harts)
  else
    let hart := harts.getD idx hart_default
    if hart.state = RPMI_HSM_HART_STATE_STOPPED then (RPMI_ERR_ALREADY, harts)
    else if hart.state = RPMI_HSM_HART_STATE_STOP_PENDING then
      (RPMI_ERR_ALREADY, harts)
    else if hart.state ≠ RPMI_HSM_HART_STATE_STARTED then
      (RPMI_ERR_DENIED, harts)
    else
      let r := ops.hart_stop_prepare idx
      if r ≠ 0 then (r, harts)
      else
        let hart1 := { hart with state := RPMI_HSM_HART_STATE_STOP_PENDING }
        let hart2 := { hart1 with
          state := process_hart_state_change (ops.hart_get_hw_state idx)
                     hart1.state }
        (RPMI_SUCCESS, harts.set idx hart2)

/-- `rpmi_hsm_hart_suspend` (lib/rpmi_hsm.c lines 388-455) on a leaf
instance (the suspend-type descriptor argument is dropped along with the
hart record's suspend-type pointer). -/
def rpmi_hsm_hart_suspend_leaf (ops : rpmi_hsm_platform_ops)
    (ids : List Nat) (harts : List rpmi_hsm_hart)
    (hart_id resume_addr : Nat) : Int × List rpmi_hsm_hart :=
  let idx := rpmi_hsm_hart_id2index (.leaf ids harts) hart_id
  if idx = LIBRPMI_HSM_INVALID_HART_INDEX then
    (RPMI_ERR_INVALID_PARAM, harts)
  else if ¬ops.has_hart_suspend then (RPMI_ERR_NOTSUPP, harts)
  else
    let hart := harts.getD idx hart_default
    if hart.state = RPMI_HSM_HART_STATE_SUSPENDED then
      (RPMI_ERR_ALREADY, harts)
    else if hart.state = RPMI_HSM_HART_STATE_SUSPEND_PENDING then
      (RPMI_ERR_ALREADY, harts)
    else if hart.state ≠ RPMI_HSM_HART_STATE_STARTED then
      (RPMI_ERR_DENIED, harts)
    else
      let r := ops.hart_suspend_prepare idx resume_addr
      if r ≠ 0 then (r, harts)
      else
        let hart1 := { hart with resume_addr := resume_addr,
                                 state := RPMI_HSM_HART_STATE_SUSPEND_PENDING }
        let hart2 := { hart1 with
          state := process_hart_state_change (ops.hart_get_hw_state idx)
                     hart1.state }
        (RPMI_SUCCESS, harts.set idx hart2)

/-- The named (non-synthetic) HSM hart states: `STARTED` (0) through
`RESUME_PENDING` (6). -/
def hsm_state_named (s : Int) : Prop := 0 ≤ s ∧ s ≤ 6

instance (s : Int) : Decidable (hsm_state_named s) := by
  unfold hsm_state_named; infer_instance

/-! ## System-suspend service group (lib/rpmi_service_group_syssusp.c) -/

/-- `enum rpmi_syssusp_state` values. -/
def RPMI_SYSSUSP_STATE_RUNNING : Nat := 0
def RPMI_SYSSUSP_STATE_SUSPEND_PENDING : Nat := 1
def RPMI_SYSSUSP_STATE_SUSPENDED : Nat := 2

/-- `struct rpmi_syssusp_group`: the suspend-type descriptors are
modelled by their `type` codes; `current_syssusp_type` holds the matched
type code (`none` models the NULL pointer set at creation). -/
structure rpmi_syssusp_group where
  syssusp_types : List Nat
  current_state : Nat
  current_hart_index : Nat
  current_syssusp_type : Option Nat
  current_resume_addr : Nat
deriving DecidableEq

/-- The hart scan of `rpmi_syssusp_do_suspend` (lines 118-129): walk the
given hart indices, skipping the requesting hart; a negative
`rpmi_hsm_get_hart_state` result aborts with that status, a hart in any
state other than `STOPPED` aborts with `RPMI_ERR_DENIED`; `none` means
the scan passed. -/
def syssusp_scan_harts (hsm : rpmi_hsm) (skip : Nat) :
    List Nat → Option Int
  | [] => none
  | i :: rest =>
    if i = skip then syssusp_scan_harts hsm skip rest
    else
      let st := rpmi_hsm_get_hart_state hsm (rpmi_hsm_hart_index2id hsm i)
      if st < 0 then some st
      else if st ≠ RPMI_HSM_HART_STATE_STOPPED then some RPMI_ERR_DENIED
      else syssusp_scan_harts hsm skip rest

/-- `rpmi_syssusp_do_suspend` (lib/rpmi_service_group_syssusp.c lines
80-146) after the request words `(hart_id, type, resume_addr)` have been
decoded: validate the hart ID, find the suspend type, require the group
state `RUNNING` (else `ALREADY`), require every other hart `STOPPED`
(else `DENIED`), then run the platform `system_suspend_prepare`
(abstracted as `prepare_status`); on success record hart index, suspend
type and resume address and move to `SUSPEND_PENDING`.  Returns the
status placed in the reply payload word and the updated group. -/
def rpmi_syssusp_do_suspend (grp : rpmi_syssusp_group) (hsm : rpmi_hsm)
    (prepare_status : Int) (hart_id type resume_addr : Nat) :
    Int × rpmi_syssusp_group :=
  let hart_index := rpmi_hsm_hart_id2index hsm hart_id
  if hart_index = LIBRPMI_HSM_INVALID_HART_INDEX then
    (RPMI_ERR_INVALID_PARAM, grp)
  else
    match grp.syssusp_types.find? (fun x => x == type) with
    | none => (RPMI_ERR_INVALID_PARAM, grp)
    | some matched_type =>
      if grp.current_state ≠ RPMI_SYSSUSP_STATE_RUNNING then
        (RPMI_ERR_ALREADY, grp)
      else
        match syssusp_scan_harts hsm hart_index
            (List.range (rpmi_hsm_hart_count hsm)) with
        | some e => (e, grp)
        | none =>
          if prepare_status ≠ 0 then (prepare_status, grp)
          else
            (RPMI_SUCCESS,
             { grp with
               current_hart_index := hart_index
               current_syssusp_type := some matched_type
               current_resume_addr := resume_addr
               current_state := RPMI_SYSSUSP_STATE_SUSPEND_PENDING })

/-! ## System-MSI service group (lib/rpmi_service_group_sysmsi.c) -/

/-- `struct rpmi_sysmsi_irq`. -/
structure rpmi_sysmsi_irq where
  msi_enable : Bool
  msi_pending : Bool
  msi_valid : Bool
  msi_addr : Nat
  msi_data : Nat
deriving DecidableEq

def sysmsi_default : rpmi_sysmsi_irq := ⟨false, false, false, 0, 0⟩

/-- One iteration of the `rpmi_sysmsi_process_events` loop body (lines
293-299): an MSI that is enabled, pending and target-valid gets a word
write of `msi_data` to `msi_addr` (`rpmi_env_writel`) and its pending
flag cleared; any other MSI is untouched. -/
def sysmsi_step (m : rpmi_sysmsi_irq) :
    rpmi_sysmsi_irq × List (Nat × Nat) :=
  if m.msi_enable && m.msi_pending && m.msi_valid then
    ({ m with msi_pending := false }, [(m.msi_addr, m.msi_data)])
  else (m, [])

/-- `rpmi_sysmsi_process_events` (lib/rpmi_service_group_sysmsi.c lines
287-302): walk the MSI array in index order; the second component is the
trace of MMIO word writes `(address, data)` performed. -/
def rpmi_sysmsi_process_events :
    List rpmi_sysmsi_irq → List rpmi_sysmsi_irq × List (Nat × Nat)
  | [] => ([], [])
  | m :: ms =>
    let r := sysmsi_step m
    let rest := rpmi_sysmsi_process_events ms
    (r.1 :: rest.1, r.2 ++ rest.2)

/-- `rpmi_service_group_sysmsi_inject` (lib/rpmi_service_group_sysmsi.c
lines 304-325): an out-of-range index fails; otherwise the MSI's pending
flag is set and `rpmi_sysmsi_process_events` runs under the group
lock. -/
def rpmi_service_group_sysmsi_inject (msis : List rpmi_sysmsi_irq)
    (msi_index : Nat) : Int × List rpmi_sysmsi_irq × List (Nat × Nat) :=
  if msis.length ≤ msi_index then (RPMI_ERR_INVALID_PARAM, msis, [])
  else
    let msis1 := msis.set msi_index
      { msis.getD msi_index sysmsi_default with msi_pending := true }
    let r := rpmi_sysmsi_process_events msis1
    (RPMI_SUCCESS, r.1, r.2)

/-! ## Context A2P request dispatch (lib/rpmi_context.c) -/

/-- Message-type values from the `flags` field (bits 0-2). -/
def RPMI_MSG_NORMAL_REQUEST : Nat := 0
def RPMI_MSG_POSTED_REQUEST : Nat := 1
def RPMI_MSG_ACKNOWLEDGEMENT : Nat := 2
def RPMI_MSG_NOTIFICATION : Nat := 3
def RPMI_MSG_FLAGS_TYPE : Nat := 0x7

/-- `struct rpmi_service`: the minimum request datalen and the
`process_a2p_request` handler.  A handler consumes the request datalen
and payload and produces `(response datalen, response payload words,
returned status)`; the response payload is modelled as the list of
32-bit words stored in the acknowledgement's data area (already in
transport endianness, as the C handlers store them with
`rpmi_to_xe32`). -/
structure rpmi_service where
  min_a2p_request_datalen : Nat
  handler : Option (Nat → List Nat → Nat × List Nat × Int)

/-- A service group as seen by the dispatch loop: `max_service_id` and
the services table. -/
structure dispatch_group where
  max_service_id : Nat
  services : Nat → rpmi_service

/-- `rpmi_service_notsupp_a2p_request` (lib/rpmi_context.c lines
295-308): response datalen 4 and a single payload word holding
`RPMI_ERR_NOTSUPP`, stored via `rpmi_to_xe32`; it returns
`RPMI_SUCCESS`. -/
def rpmi_service_notsupp_a2p_request (is_be : Bool) :
    Nat × List Nat × Int :=
  (4, [rpmi_to_xe32 is_be (int_to_u32 RPMI_ERR_NOTSUPP)], RPMI_SUCCESS)

/-- One iteration of the `rpmi_context_process_a2p_request` loop
(lib/rpmi_context.c lines 327-415) for a request whose service group was
found, returning the list of acknowledgement messages handed to
`rpmi_transport_enqueue` on the P2A-ACK queue (the enqueue is retried
while the ring is full, so a produced acknowledgement is enqueued
exactly once).  The acknowledgement header echoes the request's service
group ID, service ID and token with flags `ACKNOWLEDGEMENT`; the service
handler fills its datalen and payload.  A request whose type is not
`NORMAL_REQUEST` or `POSTED_REQUEST` is dropped, and a handler status
other than `RPMI_SUCCESS` drops the acknowledgement (lines 382-393). -/
def rpmi_context_process_one_request (is_be : Bool) (grp : dispatch_group)
    (req : rpmi_message) : List rpmi_message :=
  let service_found := req.header.service_id < grp.max_service_id
  let svc := grp.services req.header.service_id
  let mtype := req.header.flags &&& RPMI_MSG_FLAGS_TYPE
  let do_process := mtype = RPMI_MSG_NORMAL_REQUEST ∨
                    mtype = RPMI_MSG_POSTED_REQUEST
  let do_acknowledge := mtype = RPMI_MSG_NORMAL_REQUEST
  if ¬do_process then []
  else
    let hres : Nat × List Nat × Int :=
      if service_found then
        match svc.handler with
        | some f =>
          if svc.min_a2p_request_datalen ≤ req.header.datalen then
            f req.header.datalen req.data
          else rpmi_service_notsupp_a2p_request is_be
        | none => rpmi_service_notsupp_a2p_request is_be
      else rpmi_service_notsupp_a2p_request is_be
    if hres.2.2 ≠ RPMI_SUCCESS then []
    else if ¬do_acknowledge then []
    else
      [⟨{ servicegroup_id := req.header.servicegroup_id
          service_id := req.header.service_id
          flags := RPMI_MSG_ACKNOWLEDGEMENT
          datalen := hres.1
          token := req.header.token }, hres.2.1⟩]

/-! ## Claim theorems -/

/-- Claim C1: the spec states that enqueue-then-dequeue through the
transport is the identity on the header fields and payload for both
endianness settings.  The code violates this for `is_be = true`: lines
102-103 of lib/rpmi_transport.c convert the 16-bit `servicegroup_id` and
`datalen` fields with `rpmi_to_xe32`, whose 32-bit byte swap leaves the
low 16 bits zero for any 16-bit value, so assignment back to the `u16`
field stores 0 — and the companion conversions (line 118 restores
`datalen` with `rpmi_to_xe16` after line 103 converted it with
`rpmi_to_xe32`; line 168 decodes it with `rpmi_to_xe16`) contradict the
enqueue-side conversion, marking the 32-bit calls as a slip.  At the
failing input below, the round trip for `is_be = true` zeroes
`servicegroup_id` and `datalen` while `is_be = false` is the identity;
`service_id`, `flags`, `token` and the payload bytes survive both. -/
theorem c1_transport_roundtrip_code_bug :
    transport_header_roundtrip false ⟨0x1234, 7, 2, 5, 0x0099⟩ =
      ⟨0x1234, 7, 2, 5, 0x0099⟩ ∧
    transport_header_roundtrip true ⟨0x1234, 7, 2, 5, 0x0099⟩ =
      ⟨0, 7, 2, 0, 0x0099⟩ ∧
    transport_header_roundtrip true ⟨0x1234, 7, 2, 5, 0x0099⟩ ≠
      ⟨0x1234, 7, 2, 5, 0x0099⟩ := by
  decide

/-- Claim C3 (counterexample): the claim reads `offset + len` as exact
integers, but lib/rpmi_shmem.c computes the bounds check in
`rpmi_uint32_t`, so the sum wraps modulo `2 ^ 32`.  With a region of
size 16, `offset = 2 ^ 32 - 1` and `len = 2`, the exact sum exceeds the
size, yet the wrapped sum is 1 and the platform read op is invoked with
no `RPMI_ERR_BAD_RANGE` failure. -/
theorem c3_shmem_bounds_counterexample :
    2 ^ 32 - 1 + 2 > 16 ∧
    rpmi_shmem_read (some ⟨0x1000, 16⟩) (2 ^ 32 - 1) false 2 RPMI_SUCCESS =
      ⟨RPMI_SUCCESS, true⟩ ∧
    (rpmi_shmem_read (some ⟨0x1000, 16⟩) (2 ^ 32 - 1) false 2
        RPMI_SUCCESS).status ≠ RPMI_ERR_BAD_RANGE := by
  decide

/-- Claim C3 (amended): `rpmi_shmem_read`, `rpmi_shmem_write` and
`rpmi_shmem_fill` return `RPMI_ERR_BAD_RANGE` whenever the 32-bit
wrapped sum `(offset + len) mod 2 ^ 32` exceeds the region size, without
invoking the platform operation; a null handle, null destination or null
source returns `RPMI_ERR_INVALID_PARAM`, also without invoking the
platform operation. -/
theorem c3_shmem_bounds (s : rpmi_shmem) (offset len : Nat) (plat : Int) :
    (u32 (offset + len) > s.size →
      rpmi_shmem_read (some s) offset false len plat =
        ⟨RPMI_ERR_BAD_RANGE, false⟩ ∧
      rpmi_shmem_write (some s) offset false len plat =
        ⟨RPMI_ERR_BAD_RANGE, false⟩ ∧
      rpmi_shmem_fill (some s) offset len plat =
        ⟨RPMI_ERR_BAD_RANGE, false⟩) ∧
    rpmi_shmem_read none offset false len plat =
      ⟨RPMI_ERR_INVALID_PARAM, false⟩ ∧
    rpmi_shmem_write none offset false len plat =
      ⟨RPMI_ERR_INVALID_PARAM, false⟩ ∧
    rpmi_shmem_fill none offset len plat =
      ⟨RPMI_ERR_INVALID_PARAM, false⟩ ∧
    rpmi_shmem_read (some s) offset true len plat =
      ⟨RPMI_ERR_INVALID_PARAM, false⟩ ∧
    rpmi_shmem_write (some s) offset true len plat =
      ⟨RPMI_ERR_INVALID_PARAM, false⟩ := by
  refine ⟨fun h => ⟨?_, ?_, ?_⟩, rfl, rfl, rfl, ?_, ?_⟩ <;>
    simp_all [rpmi_shmem_read, rpmi_shmem_write, rpmi_shmem_fill]

/-- Claim C3 witness: the amended bounds behaviour at concrete inputs. -/
theorem c3_shmem_bounds_witness :
    rpmi_shmem_read (some ⟨0, 8⟩) 4 false 8 RPMI_SUCCESS =
      ⟨RPMI_ERR_BAD_RANGE, false⟩ ∧
    rpmi_shmem_read none 0 false 0 RPMI_SUCCESS =
      ⟨RPMI_ERR_INVALID_PARAM, false⟩ :=
  ⟨((c3_shmem_bounds ⟨0, 8⟩ 4 8 RPMI_SUCCESS).1 (by decide)).1,
   (c3_shmem_bounds ⟨0, 8⟩ 0 0 RPMI_SUCCESS).2.1⟩

/-- Claim C6: one reconciliation step is monotonic on the pending
states — for every hardware state, `START_PENDING` either stays or moves
to `STARTED`, `STOP_PENDING` either stays or moves to `STOPPED`, and
`SUSPEND_PENDING` either stays or moves to `SUSPENDED`. -/
theorem c6_reconciliation_monotonic (hw_state : Nat) :
    (process_hart_state_change hw_state RPMI_HSM_HART_STATE_START_PENDING =
       RPMI_HSM_HART_STATE_START_PENDING ∨
     process_hart_state_change hw_state RPMI_HSM_HART_STATE_START_PENDING =
       RPMI_HSM_HART_STATE_STARTED) ∧
    (process_hart_state_change hw_state RPMI_HSM_HART_STATE_STOP_PENDING =
       RPMI_HSM_HART_STATE_STOP_PENDING ∨
     process_hart_state_change hw_state RPMI_HSM_HART_STATE_STOP_PENDING =
       RPMI_HSM_HART_STATE_STOPPED) ∧
    (process_hart_state_change hw_state RPMI_HSM_HART_STATE_SUSPEND_PENDING =
       RPMI_HSM_HART_STATE_SUSPEND_PENDING ∨
     process_hart_state_change hw_state RPMI_HSM_HART_STATE_SUSPEND_PENDING =
       RPMI_HSM_HART_STATE_SUSPENDED) := by
  refine ⟨?_, ?_, ?_⟩ <;>
    · unfold process_hart_state_change
      split_ifs <;> simp_all [RPMI_HSM_HART_STATE_START_PENDING,
        RPMI_HSM_HART_STATE_STOP_PENDING, RPMI_HSM_HART_STATE_SUSPEND_PENDING,
        RPMI_HSM_HART_STATE_STARTED, RPMI_HSM_HART_STATE_STOPPED,
        RPMI_HSM_HART_STATE_SUSPENDED]

/-- Claim C2 (counterexample): the claim states that disabling a clock
with an enabled child is always denied, but
`__rpmi_clock_set_state` (lib/rpmi_service_group_clock.c line 216)
disables directly — without walking the children — whenever
`enable_count == 1`.  The state below is reachable: from an all-disabled
two-clock tree (parent 0, child 1), enabling clock 1 recursively enables
clock 0 leaving both clocks `ENABLED` with `enable_count = 1`.
Disabling clock 0 then succeeds: the platform `set_state` is called for
clock 0, its cached state becomes `DISABLED` and its count drops to 0,
even though its child 1 is still `ENABLED` — not the claimed `DENIED`
with no state change. -/
theorem c2_clock_disable_counterexample :
    (rpmi_get_clock ⟨[⟨1, 1, none, [1]⟩, ⟨1, 1, some 0, []⟩]⟩ 0).children =
      [1] ∧
    (rpmi_get_clock ⟨[⟨1, 1, none, [1]⟩, ⟨1, 1, some 0, []⟩]⟩ 1).current_state
      = RPMI_CLK_STATE_ENABLED ∧
    rpmi_clock_set_state (fun _ _ => RPMI_SUCCESS)
        ⟨[⟨1, 1, none, [1]⟩, ⟨1, 1, some 0, []⟩]⟩ 0 RPMI_CLK_STATE_DISABLED =
      (RPMI_SUCCESS, ⟨[⟨0, 0, none, [1]⟩, ⟨1, 1, some 0, []⟩]⟩, [(0, 0)]) ∧
    RPMI_SUCCESS ≠ RPMI_ERR_DENIED := by
  decide

/-- Claim C2 (amended): for every clock C whose cached state is
`ENABLED`, that has at least one child, whose enable-count is not 1, and
at least one of whose children is in the `ENABLED` state, requesting
`DISABLED` on C returns `RPMI_ERR_DENIED` and leaves the whole group
(cached states and enable-counts) unchanged, with no platform
`set_state` call. -/
theorem c2_clock_disable_denied (set_state : Nat → Nat → Int)
    (g : rpmi_clock_group) (clkid : Nat)
    (hstate : (rpmi_get_clock g clkid).current_state =
      RPMI_CLK_STATE_ENABLED)
    (hchildren : (rpmi_get_clock g clkid).children ≠ [])
    (hcount : (rpmi_get_clock g clkid).enable_count ≠ 1)
    (hbusy : ∃ c ∈ (rpmi_get_clock g clkid).children,
      (rpmi_get_clock g c).current_state = RPMI_CLK_STATE_ENABLED) :
    rpmi_clock_set_state set_state g clkid RPMI_CLK_STATE_DISABLED =
      (RPMI_ERR_DENIED, g, []) := by
  have hany : (rpmi_get_clock g clkid).children.any
      (fun c => (rpmi_get_clock g c).current_state =
        RPMI_CLK_STATE_ENABLED) = true := by
    rcases hbusy with ⟨c, hc, hcs⟩
    exact List.any_eq_true.mpr ⟨c, hc, by simpa using hcs⟩
  unfold rpmi_clock_set_state clock_set_state_inner
  simp [RPMI_CLK_STATE_DISABLED, RPMI_CLK_STATE_ENABLED] at hstate hany ⊢
  simp [hstate, hany, List.length_eq_zero, hchildren, hcount]

/-- Claim C2 witness: the amended DENIED behaviour at a concrete clock
group (parent 0 enabled with count 2, child 1 enabled). -/
theorem c2_clock_disable_denied_witness :
    rpmi_clock_set_state (fun _ _ => RPMI_SUCCESS)
        ⟨[⟨2, 1, none, [1]⟩, ⟨1, 1, some 0, []⟩]⟩ 0 RPMI_CLK_STATE_DISABLED =
      (RPMI_ERR_DENIED, ⟨[⟨2, 1, none, [1]⟩, ⟨1, 1, some 0, []⟩]⟩, []) :=
  c2_clock_disable_denied (fun _ _ => RPMI_SUCCESS) _ 0 (by decide)
    (by decide) (by decide) ⟨1, by decide, by decide⟩

/-- Helper for C4: starting with head 0 and tail `k`, a run of enqueues
that stays strictly below `data_slots` succeeds at every step, keeps the
head at 0 and advances the tail by one per message. -/
theorem enqueue_seq_success (is_be : Bool) (ds : Nat) (hds : ds < 2 ^ 32) :
    ∀ (msgs : List rpmi_message) (k : Nat) (slots : List rpmi_message),
      k + msgs.length < ds →
      (enqueue_seq is_be ⟨0, k, ds, slots⟩ msgs).1 =
        List.replicate msgs.length RPMI_SUCCESS ∧
      (enqueue_seq is_be ⟨0, k, ds, slots⟩ msgs).2.head = 0 ∧
      (enqueue_seq is_be ⟨0, k, ds, slots⟩ msgs).2.tail = k + msgs.length ∧
      (enqueue_seq is_be ⟨0, k, ds, slots⟩ msgs).2.data_slots = ds := by
  intro msgs
  induction msgs with
  | nil => intro k slots _; simp [enqueue_seq]
  | cons m ms ih =>
    intro k slots hk
    simp only [List.length_cons] at hk
    have hk1 : k + 1 < ds := by omega
    have hmod : u32 (k + 1) % ds = k + 1 := by
      have h1 : u32 (k + 1) = k + 1 :=
        Nat.mod_eq_of_lt (lt_trans hk1 hds)
      rw [h1]; exact Nat.mod_eq_of_lt hk1
    have hnotfull : shmem_is_full ⟨0, k, ds, slots⟩ = false := by
      simp [shmem_is_full, hmod]
    have hstep : rpmi_transport_enqueue is_be ⟨0, k, ds, slots⟩ m =
        (RPMI_SUCCESS, ⟨0, k + 1, ds,
          slots.set k ⟨enqueue_header_convert is_be m.header, m.data⟩⟩) := by
      simp [rpmi_transport_enqueue, hnotfull, shmem_enqueue, hmod]
    have hrest := ih (k + 1)
      (slots.set k ⟨enqueue_header_convert is_be m.header, m.data⟩)
      (by omega)
    simp only [enqueue_seq, hstep, List.length_cons]
    refine ⟨?_, hrest.2.1, ?_, hrest.2.2.2⟩
    · rw [hrest.1, List.replicate_succ]
    · rw [hrest.2.2.1]; omega

/-- Claim C4: a shared-memory queue is empty iff head equals tail, and
full iff `(tail + 1) mod data_slots` equals head (the tail increment
performed in 32-bit arithmetic, which never wraps since tail is a slot
index); starting from an empty queue with head and tail 0, a run of
`data_slots - 1` enqueues succeeds at every step and leaves the queue
full, and the next `rpmi_transport_enqueue` fails with the input/output
error, writing no slot and leaving head, tail and all slots
unchanged. -/
theorem c4_ring_queue (is_be : Bool) (ds : Nat) (slots : List rpmi_message)
    (msgs : List rpmi_message) (extra : rpmi_message) (q : shmem_queue)
    (hq : q.tail + 1 < 2 ^ 32) (hds0 : 1 ≤ ds) (hds : ds < 2 ^ 32)
    (hlen : msgs.length = ds - 1) :
    (shmem_is_empty q = true ↔ q.head = q.tail) ∧
    (shmem_is_full q = true ↔ (q.tail + 1) % q.data_slots = q.head) ∧
    (enqueue_seq is_be ⟨0, 0, ds, slots⟩ msgs).1 =
      List.replicate (ds - 1) RPMI_SUCCESS ∧
    shmem_is_full (enqueue_seq is_be ⟨0, 0, ds, slots⟩ msgs).2 = true ∧
    rpmi_transport_enqueue is_be
        (enqueue_seq is_be ⟨0, 0, ds, slots⟩ msgs).2 extra =
      (RPMI_ERR_INOUT, (enqueue_seq is_be ⟨0, 0, ds, slots⟩ msgs).2) := by
  have hseq := enqueue_seq_success is_be ds hds msgs 0 slots (by omega)
  have hfull : shmem_is_full (enqueue_seq is_be ⟨0, 0, ds, slots⟩ msgs).2 =
      true := by
    simp only [shmem_is_full, hseq.2.1, hseq.2.2.1, hseq.2.2.2, hlen, u32]
    have hds' : 0 + (ds - 1) + 1 = ds := by omega
    rw [hds', Nat.mod_eq_of_lt hds, Nat.mod_self]
    simp
  refine ⟨by simp [shmem_is_empty], ?_, by rw [hseq.1, hlen], hfull, ?_⟩
  · simp [shmem_is_full, u32,
      Nat.mod_eq_of_lt (show q.tail + 1 < 4294967296 by omega)]
  · simp [rpmi_transport_enqueue, hfull]

/-- Claim C4 witness: a 3-data-slot queue at concrete inputs. -/
theorem c4_ring_queue_witness :
    (shmem_is_empty ⟨4, 4, 3, []⟩ = true ↔ (4 : Nat) = 4) ∧
    (enqueue_seq false ⟨0, 0, 3, []⟩
      [⟨⟨1, 1, 0, 0, 1⟩, []⟩, ⟨⟨2, 2, 0, 0, 2⟩, []⟩]).1 =
      List.replicate 2 RPMI_SUCCESS ∧
    shmem_is_full (enqueue_seq false ⟨0, 0, 3, []⟩
      [⟨⟨1, 1, 0, 0, 1⟩, []⟩, ⟨⟨2, 2, 0, 0, 2⟩, []⟩]).2 = true ∧
    rpmi_transport_enqueue false (enqueue_seq false ⟨0, 0, 3, []⟩
        [⟨⟨1, 1, 0, 0, 1⟩, []⟩, ⟨⟨2, 2, 0, 0, 2⟩, []⟩]).2 ⟨⟨3, 3, 0, 0, 3⟩, []⟩ =
      (RPMI_ERR_INOUT, (enqueue_seq false ⟨0, 0, 3, []⟩
        [⟨⟨1, 1, 0, 0, 1⟩, []⟩, ⟨⟨2, 2, 0, 0, 2⟩, []⟩]).2) := by
  have h := c4_ring_queue false 3 [] [⟨⟨1, 1, 0, 0, 1⟩, []⟩,
    ⟨⟨2, 2, 0, 0, 2⟩, []⟩] ⟨⟨3, 3, 0, 0, 3⟩, []⟩ ⟨4, 4, 3, []⟩
    (by decide) (by decide) (by decide) (by decide)
  exact ⟨h.1, h.2.2.1, h.2.2.2.1, h.2.2.2.2⟩

/-- Claim C5 (counterexample): the claim promises exactly one
acknowledgement for every NORMAL request whose group is found, but the
dispatch loop drops the acknowledgement when the service handler returns
a status other than `RPMI_SUCCESS` (lib/rpmi_context.c lines 382-393,
`continue` before the enqueue), and such handlers exist:
`rpmi_mm_communicate` returns `RPMI_ERR_NO_DATA` when no handler is
registered for the request's GUID (lib/rpmi_service_group_mm.c lines
225-226).  At the concrete input below — a NORMAL request to service 1
of a found group whose handler mirrors that early return — no
acknowledgement is produced. -/
theorem c5_dispatch_counterexample :
    RPMI_ERR_NO_DATA ≠ RPMI_SUCCESS ∧
    rpmi_context_process_one_request false
        ⟨2, fun _ => ⟨0, some (fun _ _ => (0, [], RPMI_ERR_NO_DATA))⟩⟩
        ⟨⟨0x000B, 1, 0, 0, 0x42⟩, []⟩ = [] := by
  decide

/-- Claim C5 (amended): for every request dequeued from the A2P-request
queue whose group is found: if its type is `POSTED_REQUEST`, no
acknowledgement is ever enqueued; if its type is `NORMAL_REQUEST` and
the service is missing, has no handler, or the request datalen is below
the service minimum, exactly one acknowledgement is enqueued on P2A-ACK
echoing the request's token, service ID and group ID and carrying the
single-word `RPMI_ERR_NOTSUPP` payload (datalen 4); if its type is
`NORMAL_REQUEST` and the service handler runs and returns
`RPMI_SUCCESS`, exactly one acknowledgement is enqueued echoing token,
service ID and group ID and carrying the handler's response payload;
if the handler returns any other status, the acknowledgement is
dropped. -/
theorem c5_dispatch (is_be : Bool) (grp : dispatch_group)
    (req : rpmi_message) :
    (req.header.flags &&& RPMI_MSG_FLAGS_TYPE = RPMI_MSG_POSTED_REQUEST →
      rpmi_context_process_one_request is_be grp req = []) ∧
    (req.header.flags &&& RPMI_MSG_FLAGS_TYPE = RPMI_MSG_NORMAL_REQUEST →
      ((¬ req.header.service_id < grp.max_service_id ∨
        (grp.services req.header.service_id).handler = none ∨
        req.header.datalen <
          (grp.services req.header.service_id).min_a2p_request_datalen) →
        rpmi_context_process_one_request is_be grp req =
          [⟨⟨req.header.servicegroup_id, req.header.service_id,
             RPMI_MSG_ACKNOWLEDGEMENT, 4, req.header.token⟩,
            [rpmi_to_xe32 is_be (int_to_u32 RPMI_ERR_NOTSUPP)]⟩]) ∧
      (∀ f, (grp.services req.header.service_id).handler = some f →
        req.header.service_id < grp.max_service_id →
        (grp.services req.header.service_id).min_a2p_request_datalen ≤
          req.header.datalen →
        ((f req.header.datalen req.data).2.2 = RPMI_SUCCESS →
          rpmi_context_process_one_request is_be grp req =
            [⟨⟨req.header.servicegroup_id, req.header.service_id,
               RPMI_MSG_ACKNOWLEDGEMENT, (f req.header.datalen req.data).1,
               req.header.token⟩, (f req.header.datalen req.data).2.1⟩]) ∧
        ((f req.header.datalen req.data).2.2 ≠ RPMI_SUCCESS →
          rpmi_context_process_one_request is_be grp req = []))) := by
  refine ⟨fun h1 => ?_, fun h0 => ⟨fun hcase => ?_, fun f hf hfound hmin => ⟨fun hok => ?_, fun hbad => ?_⟩⟩⟩
  · simp [rpmi_context_process_one_request, h1, RPMI_MSG_POSTED_REQUEST,
      RPMI_MSG_NORMAL_REQUEST]
  · rcases hcase with hns | hnone | hlt
    · simp [rpmi_context_process_one_request, h0, hns,
        RPMI_MSG_POSTED_REQUEST, RPMI_MSG_NORMAL_REQUEST,
        RPMI_MSG_ACKNOWLEDGEMENT, rpmi_service_notsupp_a2p_request,
        RPMI_SUCCESS]
    · simp [rpmi_context_process_one_request, h0, hnone,
        RPMI_MSG_POSTED_REQUEST, RPMI_MSG_NORMAL_REQUEST,
        RPMI_MSG_ACKNOWLEDGEMENT, rpmi_service_notsupp_a2p_request,
        RPMI_SUCCESS]
    · cases hh : (grp.services req.header.service_id).handler with
      | none =>
        simp [rpmi_context_process_one_request, h0, hh,
          RPMI_MSG_POSTED_REQUEST, RPMI_MSG_NORMAL_REQUEST,
          RPMI_MSG_ACKNOWLEDGEMENT, rpmi_service_notsupp_a2p_request,
          RPMI_SUCCESS]
      | some f =>
        simp [rpmi_context_process_one_request, h0, hh, not_le.mpr hlt,
          RPMI_MSG_POSTED_REQUEST, RPMI_MSG_NORMAL_REQUEST,
          RPMI_MSG_ACKNOWLEDGEMENT, rpmi_service_notsupp_a2p_request,
          RPMI_SUCCESS]
  · simp [rpmi_context_process_one_request, h0, hf, hfound, hmin, hok,
      RPMI_MSG_POSTED_REQUEST, RPMI_MSG_NORMAL_REQUEST,
      RPMI_MSG_ACKNOWLEDGEMENT, RPMI_SUCCESS]
  · simp only [RPMI_SUCCESS] at hbad
    simp [rpmi_context_process_one_request, h0, hf, hfound, hmin, hbad,
      RPMI_MSG_POSTED_REQUEST, RPMI_MSG_NORMAL_REQUEST,
      RPMI_MSG_ACKNOWLEDGEMENT, RPMI_SUCCESS]

/-- Claim C5 witness: a NORMAL request to a found group with no handler
for the service draws the single-word not-supported acknowledgement. -/
theorem c5_dispatch_witness :
    rpmi_context_process_one_request false ⟨2, fun _ => ⟨0, none⟩⟩
        ⟨⟨0x0001, 1, 0, 0, 0x42⟩, []⟩ =
      [⟨⟨0x0001, 1, RPMI_MSG_ACKNOWLEDGEMENT, 4, 0x42⟩,
        [rpmi_to_xe32 false (int_to_u32 RPMI_ERR_NOTSUPP)]⟩] :=
  ((c5_dispatch false ⟨2, fun _ => ⟨0, none⟩⟩
      ⟨⟨0x0001, 1, 0, 0, 0x42⟩, []⟩).2 rfl).1 (Or.inr (Or.inl rfl))

/-- Helper for C7: the hart scan passes when every scanned hart other
than the skipped one reports `STOPPED`. -/
theorem syssusp_scan_harts_none (hsm : rpmi_hsm) (skip : Nat)
    (l : List Nat)
    (h : ∀ i ∈ l, i ≠ skip →
      rpmi_hsm_get_hart_state hsm (rpmi_hsm_hart_index2id hsm i) =
        RPMI_HSM_HART_STATE_STOPPED) :
    syssusp_scan_harts hsm skip l = none := by
  induction l with
  | nil => rfl
  | cons i rest ih =>
    by_cases hskip : i = skip
    · simp only [syssusp_scan_harts, if_pos hskip]
      exact ih (fun j hj => h j (List.mem_cons_of_mem i hj))
    · have hst := h i (List.mem_cons_self i rest) hskip
      simp only [syssusp_scan_harts, if_neg hskip, hst,
        RPMI_HSM_HART_STATE_STOPPED]
      norm_num
      exact ih (fun j hj => h j (List.mem_cons_of_mem i hj))

/-- Helper for C7: if every scanned hart state is non-negative and some
hart other than the skipped one is not `STOPPED`, the scan aborts with
`RPMI_ERR_DENIED`. -/
theorem syssusp_scan_harts_denied (hsm : rpmi_hsm) (skip : Nat)
    (l : List Nat)
    (hpos : ∀ i ∈ l, i ≠ skip →
      0 ≤ rpmi_hsm_get_hart_state hsm (rpmi_hsm_hart_index2id hsm i))
    (h : ∃ i ∈ l, i ≠ skip ∧
      rpmi_hsm_get_hart_state hsm (rpmi_hsm_hart_index2id hsm i) ≠
        RPMI_HSM_HART_STATE_STOPPED) :
    syssusp_scan_harts hsm skip l = some RPMI_ERR_DENIED := by
  induction l with
  | nil => simp at h
  | cons i rest ih =>
    rcases h with ⟨j, hj, hjskip, hjbad⟩
    by_cases hskip : i = skip
    · simp only [syssusp_scan_harts, if_pos hskip]
      refine ih (fun m hm => hpos m (List.mem_cons_of_mem i hm)) ⟨j, ?_, hjskip, hjbad⟩
      rcases List.mem_cons.mp hj with hji | hji
      · exact absurd (hji ▸ hskip) hjskip
      · exact hji
    · have hp := hpos i (List.mem_cons_self i rest) hskip
      simp only [syssusp_scan_harts, if_neg hskip, not_lt.mpr hp, if_neg
        (not_lt.mpr hp)]
      by_cases hbad : rpmi_hsm_get_hart_state hsm
          (rpmi_hsm_hart_index2id hsm i) = RPMI_HSM_HART_STATE_STOPPED
      · simp only [hbad]
        norm_num
        refine ih (fun m hm => hpos m (List.mem_cons_of_mem i hm)) ⟨j, ?_, hjskip, hjbad⟩
        rcases List.mem_cons.mp hj with hji | hji
        · exact absurd (hji ▸ hbad) hjbad
        · exact hji
      · simp [hbad, not_lt.mpr hp]

/-- Claim C7: for every SYSTEM_SUSPEND request with a valid hart ID and a
known suspend type: if the group's current state is not `RUNNING` the
reply status is `RPMI_ERR_ALREADY` and the group is unchanged; otherwise
(with every hart state reported by the HSM non-negative, which holds for
any HSM whose harts are in named states) if any other hart is not
`STOPPED` the reply status is `RPMI_ERR_DENIED` and the group is
unchanged; and if every other hart is `STOPPED` and
`system_suspend_prepare` succeeds, the group records the hart index,
the matched suspend type and the resume address and transitions to
`SUSPEND_PENDING` with a `RPMI_SUCCESS` reply. -/
theorem c7_syssusp_do_suspend (grp : rpmi_syssusp_group) (hsm : rpmi_hsm)
    (prep : Int) (hart_id type resume_addr : Nat)
    (hvalid : rpmi_hsm_hart_id2index hsm hart_id ≠
      LIBRPMI_HSM_INVALID_HART_INDEX)
    (htype : type ∈ grp.syssusp_types) :
    (grp.current_state ≠ RPMI_SYSSUSP_STATE_RUNNING →
      rpmi_syssusp_do_suspend grp hsm prep hart_id type resume_addr =
        (RPMI_ERR_ALREADY, grp)) ∧
    (grp.current_state = RPMI_SYSSUSP_STATE_RUNNING →
      (∀ i ∈ List.range (rpmi_hsm_hart_count hsm),
        i ≠ rpmi_hsm_hart_id2index hsm hart_id →
        0 ≤ rpmi_hsm_get_hart_state hsm (rpmi_hsm_hart_index2id hsm i)) →
      ((∃ i ∈ List.range (rpmi_hsm_hart_count hsm),
        i ≠ rpmi_hsm_hart_id2index hsm hart_id ∧
        rpmi_hsm_get_hart_state hsm (rpmi_hsm_hart_index2id hsm i) ≠
          RPMI_HSM_HART_STATE_STOPPED) →
        rpmi_syssusp_do_suspend grp hsm prep hart_id type resume_addr =
          (RPMI_ERR_DENIED, grp)) ∧
      ((∀ i ∈ List.range (rpmi_hsm_hart_count hsm),
        i ≠ rpmi_hsm_hart_id2index hsm hart_id →
        rpmi_hsm_get_hart_state hsm (rpmi_hsm_hart_index2id hsm i) =
          RPMI_HSM_HART_STATE_STOPPED) →
       prep = RPMI_SUCCESS →
        rpmi_syssusp_do_suspend grp hsm prep hart_id type resume_addr =
          (RPMI_SUCCESS,
           { grp with
             current_hart_index := rpmi_hsm_hart_id2index hsm hart_id
             current_syssusp_type := some type
             current_resume_addr := resume_addr
             current_state := RPMI_SYSSUSP_STATE_SUSPEND_PENDING }))) := by
  have hfind : grp.syssusp_types.find? (fun x => x == type) = some type := by
    cases hf : grp.syssusp_types.find? (fun x => x == type) with
    | none =>
      exact absurd (by simp : (type == type) = true)
        (List.find?_eq_none.mp hf type htype)
    | some y =>
      have hy := List.find?_some hf
      simp only [beq_iff_eq] at hy
      rw [← hy]
  refine ⟨fun halready => ?_, fun hrun hpos => ⟨fun hbad => ?_, fun hstop hprep => ?_⟩⟩
  · simp [rpmi_syssusp_do_suspend, hvalid, hfind, halready]
  · have hscan := syssusp_scan_harts_denied hsm
      (rpmi_hsm_hart_id2index hsm hart_id)
      (List.range (rpmi_hsm_hart_count hsm)) hpos hbad
    simp [rpmi_syssusp_do_suspend, hvalid, hfind, hrun, hscan]
  · have hscan := syssusp_scan_harts_none hsm
      (rpmi_hsm_hart_id2index hsm hart_id)
      (List.range (rpmi_hsm_hart_count hsm)) hstop
    simp [rpmi_syssusp_do_suspend, hvalid, hfind, hrun, hscan, hprep,
      RPMI_SUCCESS]

/-- Claim C7 witness: a two-hart leaf HSM (hart 5 started, hart 6
stopped), a running group knowing suspend type 7, and a successful
prepare: the suspend request for hart 5 succeeds and the group moves to
`SUSPEND_PENDING` with the parameters recorded. -/
theorem c7_syssusp_do_suspend_witness :
    rpmi_syssusp_do_suspend ⟨[7], RPMI_SYSSUSP_STATE_RUNNING, 0, none, 0⟩
        (.leaf [5, 6] [⟨0, 0, 0⟩, ⟨1, 0, 0⟩]) RPMI_SUCCESS 5 7 0x8000 =
      (RPMI_SUCCESS, ⟨[7], RPMI_SYSSUSP_STATE_SUSPEND_PENDING, 0, some 7,
        0x8000⟩) :=
  ((c7_syssusp_do_suspend ⟨[7], RPMI_SYSSUSP_STATE_RUNNING, 0, none, 0⟩
      (.leaf [5, 6] [⟨0, 0, 0⟩, ⟨1, 0, 0⟩]) RPMI_SUCCESS 5 7 0x8000
      (by decide) (by decide)).2 rfl (by decide)).2 (by decide) rfl

/-- Claim C8: for every HSM instance (leaf or non-leaf composite) and
every hart ID `x` it owns (i.e. `x` is `rpmi_hsm_hart_index2id` of some
index below the hart count), `rpmi_hsm_hart_id2index x` is a valid index
below the hart count and `rpmi_hsm_hart_index2id` applied to it returns
`x`. -/
theorem c8_hart_id_index_roundtrip (hsm : rpmi_hsm) (x : Nat)
    (h : ∃ i, i < rpmi_hsm_hart_count hsm ∧
      rpmi_hsm_hart_index2id hsm i = x) :
    rpmi_hsm_hart_id2index hsm x < rpmi_hsm_hart_count hsm ∧
    rpmi_hsm_hart_index2id hsm (rpmi_hsm_hart_id2index hsm x) = x := by
  obtain ⟨i, hi, hx⟩ := h
  unfold rpmi_hsm_hart_id2index
  cases hfind : (List.range (rpmi_hsm_hart_count hsm)).find?
      (fun j => rpmi_hsm_hart_index2id hsm j == x) with
  | none =>
    have := List.find?_eq_none.mp hfind i (List.mem_range.mpr hi)
    simp [hx] at this
  | some j =>
    have hj := List.mem_range.mp (List.mem_of_find?_eq_some hfind)
    have hpj := List.find?_some hfind
    simp only [beq_iff_eq] at hpj
    exact ⟨hj, hpj⟩

/-- Claim C8 witness: a non-leaf composite of two leaves owning hart IDs
`{10, 11}` and `{12}`; hart ID 12 round-trips through index 2. -/
theorem c8_hart_id_index_roundtrip_witness :
    rpmi_hsm_hart_id2index
        (.nonleaf [.leaf [10, 11] [], .leaf [12] []]) 12 <
      rpmi_hsm_hart_count (.nonleaf [.leaf [10, 11] [], .leaf [12] []]) ∧
    rpmi_hsm_hart_index2id (.nonleaf [.leaf [10, 11] [], .leaf [12] []])
        (rpmi_hsm_hart_id2index
          (.nonleaf [.leaf [10, 11] [], .leaf [12] []]) 12) = 12 :=
  c8_hart_id_index_roundtrip (.nonleaf [.leaf [10, 11] [], .leaf [12] []])
    12 ⟨2, by decide, by decide⟩

/-- Helper for C9: one reconciliation step keeps a named state named. -/
theorem process_hart_state_change_named (hw : Nat) (s : Int)
    (h : hsm_state_named s) :
    hsm_state_named (process_hart_state_change hw s) := by
  unfold hsm_state_named at h ⊢
  unfold process_hart_state_change
  split_ifs <;>
    simp_all [RPMI_HSM_HART_STATE_STARTED, RPMI_HSM_HART_STATE_STOPPED,
      RPMI_HSM_HART_STATE_SUSPENDED]

/-- Helper for C9: classifying the synthetic unknown state yields
`STARTED`, `STOPPED` or `SUSPENDED`. -/
theorem process_hart_state_change_unknown (hw : Nat) :
    process_hart_state_change hw (-1) = RPMI_HSM_HART_STATE_STARTED ∨
    process_hart_state_change hw (-1) = RPMI_HSM_HART_STATE_STOPPED ∨
    process_hart_state_change hw (-1) = RPMI_HSM_HART_STATE_SUSPENDED := by
  unfold process_hart_state_change
  split_ifs <;>
    simp_all [RPMI_HSM_HART_STATE_STARTED, RPMI_HSM_HART_STATE_STOPPED,
      RPMI_HSM_HART_STATE_SUSPENDED, RPMI_HSM_HART_STATE_START_PENDING,
      RPMI_HSM_HART_STATE_STOP_PENDING, RPMI_HSM_HART_STATE_SUSPEND_PENDING]

/-- Projection of a leaf HSM instance's hart array. -/
def rpmi_hsm_harts : rpmi_hsm → List rpmi_hsm_hart
  | .leaf _ hs => hs
  | .nonleaf _ => []

/-- Helper for C9: a valid hart ID's index is below the hart count. -/
theorem id2index_lt_count (hsm : rpmi_hsm) (hart_id : Nat)
    (h : rpmi_hsm_hart_id2index hsm hart_id ≠
      LIBRPMI_HSM_INVALID_HART_INDEX) :
    rpmi_hsm_hart_id2index hsm hart_id < rpmi_hsm_hart_count hsm := by
  unfold rpmi_hsm_hart_id2index at h ⊢
  cases hfind : (List.range (rpmi_hsm_hart_count hsm)).find?
      (fun i => rpmi_hsm_hart_index2id hsm i == hart_id) with
  | none => rw [hfind] at h; simp at h
  | some j =>
    simpa using List.mem_range.mp (List.mem_of_find?_eq_some hfind)

/-- Helper for C9: a full reconciliation pass preserves named states. -/
theorem process_state_changes_leaf_named (ops : rpmi_hsm_platform_ops)
    (harts : List rpmi_hsm_hart)
    (hnamed : ∀ h ∈ harts, hsm_state_named h.state) :
    ∀ h ∈ rpmi_hsm_process_state_changes_leaf ops harts,
      hsm_state_named h.state := by
  intro h hm
  simp only [rpmi_hsm_process_state_changes_leaf] at hm
  rw [List.mem_iff_get] at hm
  obtain ⟨⟨i, hi⟩, rfl⟩ := hm
  have hi' : i < harts.length := by
    simpa [List.length_mapIdx] using hi
  rw [List.get_mapIdx harts _ i hi']
  exact process_hart_state_change_named _ _
    (hnamed _ (List.get_mem harts i hi'))

/-- Helper for C9: every hart state coming out of a successful
`rpmi_hsm_create` is `STARTED`, `STOPPED` or `SUSPENDED`. -/
theorem rpmi_hsm_create_states (ids : List Nat)
    (ops : rpmi_hsm_platform_ops) :
    ∀ h ∈ rpmi_hsm_harts (rpmi_hsm_create ids ops),
      h.state = RPMI_HSM_HART_STATE_STARTED ∨
      h.state = RPMI_HSM_HART_STATE_STOPPED ∨
      h.state = RPMI_HSM_HART_STATE_SUSPENDED := by
  intro h hm
  simp only [rpmi_hsm_create, rpmi_hsm_harts,
    rpmi_hsm_process_state_changes_leaf] at hm
  rw [List.mem_iff_get] at hm
  obtain ⟨⟨i, hi⟩, rfl⟩ := hm
  have hi' : i <
      (ids.map fun _ => ({ hart_default with state := -1 } :
        rpmi_hsm_hart)).length := by
    simpa [List.length_mapIdx] using hi
  rw [List.get_mapIdx _ _ i hi']
  have hst : ((ids.map fun _ => ({ hart_default with state := -1 } :
      rpmi_hsm_hart)).get ⟨i, hi'⟩).state = -1 := by
    simp [List.getElem_map]
  dsimp only
  rw [hst]
  exact process_hart_state_change_unknown _

/-- Helper for C9: `rpmi_hsm_get_hart_state` on a leaf with named hart
states and a valid hart ID returns a non-negative state. -/
theorem get_hart_state_leaf_nonneg (ids : List Nat)
    (harts : List rpmi_hsm_hart) (hlen : harts.length = ids.length)
    (hnamed : ∀ h ∈ harts, hsm_state_named h.state) (hart_id : Nat)
    (hvalid : rpmi_hsm_hart_id2index (.leaf ids harts) hart_id ≠
      LIBRPMI_HSM_INVALID_HART_INDEX) :
    0 ≤ rpmi_hsm_get_hart_state (.leaf ids harts) hart_id := by
  have hlt := id2index_lt_count (.leaf ids harts) hart_id hvalid
  unfold rpmi_hsm_get_hart_state
  rw [if_neg hvalid]
  have hlt' : rpmi_hsm_hart_id2index (.leaf ids harts) hart_id <
      harts.length := by
    simpa [rpmi_hsm_hart_count, hlen] using hlt
  rw [List.getD_eq_getElem harts hart_default hlt']
  exact (hnamed _ (List.getElem_mem hlt')).1

/-- Helper for C9: `rpmi_hsm_hart_start` on a leaf preserves named hart
states. -/
theorem hart_start_leaf_named (ops : rpmi_hsm_platform_ops)
    (ids : List Nat) (harts : List rpmi_hsm_hart)
    (hart_id start_addr : Nat)
    (hnamed : ∀ h ∈ harts, hsm_state_named h.state) :
    ∀ h ∈ (rpmi_hsm_hart_start_leaf ops ids harts hart_id start_addr).2,
      hsm_state_named h.state := by
  intro h hm
  simp only [rpmi_hsm_hart_start_leaf, apply_ite Prod.snd] at hm
  split_ifs at hm <;>
    first
      | exact hnamed _ hm
      | (rcases List.mem_or_eq_of_mem_set hm with hmem | rfl
         exacts [hnamed _ hmem,
           by dsimp only
              exact process_hart_state_change_named _
                RPMI_HSM_HART_STATE_START_PENDING (by decide)])

/-- Helper for C9: `rpmi_hsm_hart_stop` on a leaf preserves named hart
states. -/
theorem hart_stop_leaf_named (ops : rpmi_hsm_platform_ops)
    (ids : List Nat) (harts : List rpmi_hsm_hart) (hart_id : Nat)
    (hnamed : ∀ h ∈ harts, hsm_state_named h.state) :
    ∀ h ∈ (rpmi_hsm_hart_stop_leaf ops ids harts hart_id).2,
      hsm_state_named h.state := by
  intro h hm
  simp only [rpmi_hsm_hart_stop_leaf, apply_ite Prod.snd] at hm
  split_ifs at hm <;>
    first
      | exact hnamed _ hm
      | (rcases List.mem_or_eq_of_mem_set hm with hmem | rfl
         exacts [hnamed _ hmem,
           by dsimp only
              exact process_hart_state_change_named _
                RPMI_HSM_HART_STATE_STOP_PENDING (by decide)])

/-- Helper for C9: `rpmi_hsm_hart_suspend` on a leaf preserves named
hart states. -/
theorem hart_suspend_leaf_named (ops : rpmi_hsm_platform_ops)
    (ids : List Nat) (harts : List rpmi_hsm_hart)
    (hart_id resume_addr : Nat)
    (hnamed : ∀ h ∈ harts, hsm_state_named h.state) :
    ∀ h ∈ (rpmi_hsm_hart_suspend_leaf ops ids harts hart_id
      resume_addr).2, hsm_state_named h.state := by
  intro h hm
  simp only [rpmi_hsm_hart_suspend_leaf, apply_ite Prod.snd] at hm
  split_ifs at hm <;>
    first
      | exact hnamed _ hm
      | (rcases List.mem_or_eq_of_mem_set hm with hmem | rfl
         exacts [hnamed _ hmem,
           by dsimp only
              exact process_hart_state_change_named _
                RPMI_HSM_HART_STATE_SUSPEND_PENDING (by decide)])

/-- Claim C9: after a successful `rpmi_hsm_create`, every hart's cached
state is `STARTED`, `STOPPED` or `SUSPENDED` (the creation pass
classifies the synthetic unknown state `-1` from the hardware state);
consequently, on any leaf instance whose hart array parallels its ID
array and whose hart states are named, `rpmi_hsm_get_hart_state` on a
valid hart ID never returns a negative value, and each public mutating
HSM operation (`hart_start`, `hart_stop`, `hart_suspend`,
`process_state_changes`) preserves membership of every hart's state in
the named-state set. -/
theorem c9_hsm_named_state_invariant (ids : List Nat)
    (ops : rpmi_hsm_platform_ops) (harts : List rpmi_hsm_hart)
    (hart_id start_addr resume_addr : Nat)
    (hlen : harts.length = ids.length)
    (hnamed : ∀ h ∈ harts, hsm_state_named h.state) :
    (∀ h ∈ rpmi_hsm_harts (rpmi_hsm_create ids ops),
      h.state = RPMI_HSM_HART_STATE_STARTED ∨
      h.state = RPMI_HSM_HART_STATE_STOPPED ∨
      h.state = RPMI_HSM_HART_STATE_SUSPENDED) ∧
    (rpmi_hsm_hart_id2index (.leaf ids harts) hart_id ≠
        LIBRPMI_HSM_INVALID_HART_INDEX →
      0 ≤ rpmi_hsm_get_hart_state (.leaf ids harts) hart_id) ∧
    (∀ h ∈ (rpmi_hsm_hart_start_leaf ops ids harts hart_id start_addr).2,
      hsm_state_named h.state) ∧
    (∀ h ∈ (rpmi_hsm_hart_stop_leaf ops ids harts hart_id).2,
      hsm_state_named h.state) ∧
    (∀ h ∈ (rpmi_hsm_hart_suspend_leaf ops ids harts hart_id
        resume_addr).2, hsm_state_named h.state) ∧
    (∀ h ∈ rpmi_hsm_process_state_changes_leaf ops harts,
      hsm_state_named h.state) :=
  ⟨rpmi_hsm_create_states ids ops,
   fun hvalid => get_hart_state_leaf_nonneg ids harts hlen hnamed hart_id
     hvalid,
   hart_start_leaf_named ops ids harts hart_id start_addr hnamed,
   hart_stop_leaf_named ops ids harts hart_id hnamed,
   hart_suspend_leaf_named ops ids harts hart_id resume_addr hnamed,
   process_state_changes_leaf_named ops harts hnamed⟩

/-- Claim C9 witness: a one-hart leaf instance (hart ID 3, state
`STOPPED`) reports a non-negative state for hart 3. -/
theorem c9_hsm_named_state_invariant_witness :
    0 ≤ rpmi_hsm_get_hart_state (.leaf [3] [⟨1, 0, 0⟩]) 3 :=
  (c9_hsm_named_state_invariant [3]
      ⟨fun _ => 0, true, fun _ _ => 0, true, fun _ => 0, true, fun _ _ => 0⟩
      [⟨1, 0, 0⟩] 3 0 0 (by decide) (by decide)).2.1 (by decide)

/-- The delivery predicate of `rpmi_sysmsi_process_events`:
`msi_enable && msi_pending && msi_valid`. -/
def sysmsi_deliverable (m : rpmi_sysmsi_irq) : Bool :=
  m.msi_enable && m.msi_pending && m.msi_valid

/-- Helper for C10: the MMIO write trace of a `process_events` pass is
exactly the deliverable MSIs' `(address, data)` pairs in array order. -/
theorem sysmsi_process_events_trace (msis : List rpmi_sysmsi_irq) :
    (rpmi_sysmsi_process_events msis).2 =
      (msis.filter sysmsi_deliverable).map
        (fun m => (m.msi_addr, m.msi_data)) := by
  induction msis with
  | nil => rfl
  | cons m ms ih =>
    by_cases hq : sysmsi_deliverable m
    · simp only [rpmi_sysmsi_process_events, sysmsi_step,
        sysmsi_deliverable] at hq ⊢
      simp [hq, List.filter_cons, ih, sysmsi_deliverable]
    · simp only [rpmi_sysmsi_process_events, sysmsi_step,
        sysmsi_deliverable] at hq ⊢
      simp [hq, List.filter_cons, ih, sysmsi_deliverable]

/-- Helper for C10: a `process_events` pass maps each MSI through one
loop-body step, preserving positions. -/
theorem sysmsi_process_events_result (msis : List rpmi_sysmsi_irq) :
    (rpmi_sysmsi_process_events msis).1 =
      msis.map (fun m => (sysmsi_step m).1) := by
  induction msis with
  | nil => rfl
  | cons m ms ih => simp [rpmi_sysmsi_process_events, ih]

/-- Claim C10: the System-MSI group performs the MMIO write only for
MSIs whose enable, pending and valid flags are all set — the write trace
of `process_events` is exactly the deliverable MSIs — and clears an
MSI's pending flag only in the same pass that writes it (a
non-deliverable MSI is untouched, a deliverable one is written and has
only its pending flag cleared); injecting on an MSI that is disabled or
target-invalid succeeds, leaves its pending flag set and performs no
write for it (every write of that pass stems from an enabled and
target-valid MSI); and a deliverable MSI is written with its configured
address and data and its pending flag cleared by the pass. -/
theorem c10_sysmsi_write_discipline (msis : List rpmi_sysmsi_irq)
    (idx : Nat) (hidx : idx < msis.length) :
    (rpmi_sysmsi_process_events msis).2 =
      (msis.filter sysmsi_deliverable).map
        (fun m => (m.msi_addr, m.msi_data)) ∧
    (sysmsi_deliverable (msis.getD idx sysmsi_default) = false →
      (rpmi_sysmsi_process_events msis).1.getD idx sysmsi_default =
        msis.getD idx sysmsi_default) ∧
    (sysmsi_deliverable (msis.getD idx sysmsi_default) = true →
      (rpmi_sysmsi_process_events msis).1.getD idx sysmsi_default =
        { msis.getD idx sysmsi_default with msi_pending := false } ∧
      ((msis.getD idx sysmsi_default).msi_addr,
        (msis.getD idx sysmsi_default).msi_data) ∈
        (rpmi_sysmsi_process_events msis).2) ∧
    (¬((msis.getD idx sysmsi_default).msi_enable = true ∧
        (msis.getD idx sysmsi_default).msi_valid = true) →
      (rpmi_service_group_sysmsi_inject msis idx).1 = RPMI_SUCCESS ∧
      (rpmi_service_group_sysmsi_inject msis idx).2.1.getD idx
          sysmsi_default =
        { msis.getD idx sysmsi_default with msi_pending := true } ∧
      (∀ w ∈ (rpmi_service_group_sysmsi_inject msis idx).2.2,
        ∃ m ∈ msis, m.msi_enable = true ∧ m.msi_valid = true ∧
          w = (m.msi_addr, m.msi_data))) := by
  have hmem_getD : msis.getD idx sysmsi_default = msis[idx] :=
    List.getD_eq_getElem msis sysmsi_default hidx
  have hres : (rpmi_sysmsi_process_events msis).1.getD idx sysmsi_default =
      (sysmsi_step msis[idx]).1 := by
    rw [sysmsi_process_events_result,
      List.getD_eq_getElem _ _ (by simpa using hidx), List.getElem_map]
  refine ⟨sysmsi_process_events_trace msis, fun hq => ?_, fun hq => ?_,
    fun hne => ?_⟩
  · rw [hmem_getD] at hq ⊢
    simp only [sysmsi_deliverable] at hq
    rw [hres]
    simp [sysmsi_step, hq]
  · rw [hmem_getD] at hq ⊢
    refine ⟨?_, ?_⟩
    · rw [hres]
      simp only [sysmsi_deliverable] at hq
      simp [sysmsi_step, hq]
    · rw [sysmsi_process_events_trace]
      exact List.mem_map.mpr ⟨msis[idx],
        List.mem_filter.mpr ⟨List.getElem_mem hidx, hq⟩, rfl⟩
  · rw [hmem_getD] at hne ⊢
    have hnle : ¬ msis.length ≤ idx := Nat.not_le.mpr hidx
    have hqv : sysmsi_deliverable
        { msis[idx] with msi_pending := true } = false := by
      simp only [sysmsi_deliverable]
      cases h1 : msis[idx].msi_enable <;>
        cases h2 : msis[idx].msi_valid <;> simp_all
    simp only [rpmi_service_group_sysmsi_inject, if_neg hnle, hmem_getD]
    refine ⟨trivial, ?_, ?_⟩
    · have hidx1 : idx < (msis.set idx
          { msis[idx] with msi_pending := true }).length := by
        simpa [List.length_set] using hidx
      rw [sysmsi_process_events_result,
        List.getD_eq_getElem _ _ (by simpa using hidx1), List.getElem_map,
        List.getElem_set_self]
      unfold sysmsi_step
      split_ifs with hcond
      · exfalso
        simp only [sysmsi_deliverable] at hqv
        simp_all
      · rfl
    · intro w hw
      rw [sysmsi_process_events_trace] at hw
      obtain ⟨m', hm', rfl⟩ := List.mem_map.mp hw
      obtain ⟨hmem1, hqual⟩ := List.mem_filter.mp hm'
      rcases List.mem_or_eq_of_mem_set hmem1 with hmem | rfl
      · refine ⟨m', hmem, ?_, ?_, rfl⟩ <;>
          · simp only [sysmsi_deliverable, Bool.and_eq_true] at hqual
            tauto
      · rw [hqv] at hqual
        exact absurd hqual (by simp)

/-- Claim C10 witness: injecting on a disabled (but target-valid) MSI
succeeds and leaves the MSI pending with no state other than the pending
flag changed. -/
theorem c10_sysmsi_write_discipline_witness :
    (rpmi_service_group_sysmsi_inject
        [⟨false, false, true, 0x100, 7⟩] 0).1 = RPMI_SUCCESS ∧
    (rpmi_service_group_sysmsi_inject
        [⟨false, false, true, 0x100, 7⟩] 0).2.1.getD 0 sysmsi_default =
      ⟨false, true, true, 0x100, 7⟩ := by
  have h := (c10_sysmsi_write_discipline [⟨false, false, true, 0x100, 7⟩] 0
      (by decide)).2.2.2 (by decide)
  exact ⟨h.1, h.2.1⟩
